import Mathlib

/-!
Shallow embedding of `ML Demo/config_utils.py` (AzureMLService_Demo).

JSON documents are modelled by `JValue`; Python dictionaries by association
lists with the usual first-match lookup; time values and delays by `Rat`
(Python floats used only for comparisons and closed-form arithmetic here);
exceptions by `Except PyErr`.  File-system reads and writes are modelled by
explicit outcome parameters (`ReadResult`, a `Bool` for the write), and
`time.time()` / `random.uniform` by explicit `Env` fields, so every source
function becomes a pure function of its state plus these inputs.
-/

/-- A JSON value as produced by Python's `json.load`. -/
inductive JValue where
  | str (s : String)
  | num (n : Int)
  | bool (b : Bool)
  | null
  | arr (xs : List JValue)
  | obj (fields : List (String × JValue))

namespace JValue

/-- Python truthiness of a JSON value: `bool(v)` is `False` exactly for
`""`, `0`, `False`, `None`, `[]`, `{}`. -/
def isTruthy : JValue → Bool
  | .str s => s != ""
  | .num n => n != 0
  | .bool b => b
  | .null => false
  | .arr xs => !xs.isEmpty
  | .obj fs => !fs.isEmpty

end JValue

/-- First-match association-list lookup, as in a Python `dict` (keys unique). -/
def alookup (fields : List (String × JValue)) (key : String) : Option JValue :=
  match fields with
  | [] => none
  | (k, v) :: rest => if k = key then some v else alookup rest key

/-- `d[key] = v` on a Python dict: overwrite in place, else append. -/
def aset (fields : List (String × JValue)) (key : String) (v : JValue) :
    List (String × JValue) :=
  match fields with
  | [] => [(key, v)]
  | (k, w) :: rest => if k = key then (k, v) :: rest else (k, w) :: aset rest key v

/-- Exceptions that the embedded fragments can raise. -/
inductive PyErr where
  /-- An exception raised by a wrapped operation or a failed I/O call;
  the tag distinguishes distinct exception objects. -/
  | exc (tag : Nat)
  | runtimeError (msg : String)
  /-- `AttributeError`, e.g. calling `.get` on a non-dict. -/
  | attributeError
  /-- `TypeError`, e.g. item assignment on a non-dict. -/
  | typeError
deriving Repr, DecidableEq

/-- `d.get(key, default)` on a Python value: raises `AttributeError` unless
the value is a dict. -/
def pyGet (d : JValue) (key : String) (default : JValue) : Except PyErr JValue :=
  match d with
  | .obj fields => .ok ((alookup fields key).getD default)
  | _ => .error .attributeError

/-- Outcome of opening and `json.load`-ing one configuration file. -/
inductive ReadResult where
  /-- `os.path.exists` is false. -/
  | missing
  /-- the open/parse raised. -/
  | failure
  /-- the parsed document. -/
  | ok (v : JValue)

/-- The mutable fields of `ConfigurationManager`. -/
structure CMState where
  config : JValue
  settings : JValue
  last_refresh_time : Rat
  refresh_interval : Rat

/-- External inputs consumed by one `refresh_config` call: the current time
and the outcome of reading each backing file. -/
structure Env where
  now : Rat
  configRead : ReadResult
  settingsRead : ReadResult

namespace ConfigurationManager

/-- `ConfigurationManager._load_config`: on a successful read replace
`self.config`; a missing file or a raised exception is logged and leaves
the state unchanged. -/
def load_config (st : CMState) (r : ReadResult) : CMState :=
  match r with
  | .ok v => { st with config := v }
  | .missing => st
  | .failure => st

/-- `ConfigurationManager._load_settings`: on a successful read replace
`self.settings` with `settings_data.get("Values", {})`; a missing file, a
raised parse exception, or a non-dict document (whose `.get` raises inside
the `try`) is logged and leaves the state unchanged. -/
def load_settings (st : CMState) (r : ReadResult) : CMState :=
  match r with
  | .ok v =>
      match pyGet v "Values" (.obj []) with
      | .ok values => { st with settings := values }
      | .error _ => st
  | .missing => st
  | .failure => st

/-- `ConfigurationManager.refresh_config`: reload both files and stamp the
current time whenever the elapsed time exceeds the refresh interval. -/
def refresh_config (st : CMState) (env : Env) : CMState :=
  if env.now - st.last_refresh_time > st.refresh_interval then
    let st1 := load_config st env.configRead
    let st2 := load_settings st1 env.settingsRead
    { st2 with last_refresh_time := env.now }
  else st

/-- `ConfigurationManager.__init__` (field initialisation followed by the
initial `refresh_config`). -/
def init (env : Env) : CMState :=
  refresh_config
    { config := .obj [], settings := .obj [],
      last_refresh_time := 0, refresh_interval := 60 } env

/-- `ConfigurationManager.get_setting`: refresh, then
`self.settings.get(key, default)`. -/
def get_setting (st : CMState) (env : Env) (key : String) (default : JValue) :
    CMState × Except PyErr JValue :=
  let st' := refresh_config st env
  (st', pyGet st'.settings key default)

/-- The key walk in `ConfigurationManager.get_config`: step into `value[key]`
while the current node is a dict containing the key, else return the default. -/
def config_walk (value : JValue) (keys : List String) (default : JValue) : JValue :=
  match keys with
  | [] => value
  | key :: rest =>
      match value with
      | .obj fields =>
          match alookup fields key with
          | some v => config_walk v rest default
          | none => default
      | _ => default

/-- `ConfigurationManager.get_config`: refresh, then walk `self.config`. -/
def get_config (st : CMState) (env : Env) (keys : List String) (default : JValue) :
    CMState × JValue :=
  let st' := refresh_config st env
  (st', config_walk st'.config keys default)

/-- The loop of `ConfigurationManager.validate_required_settings` over a dict
snapshot: collect, in manifest order, the keys that are absent or whose value
is falsy. -/
def missing_keys (settings : List (String × JValue)) (required : List String) :
    List String :=
  match required with
  | [] => []
  | key :: rest =>
      match alookup settings key with
      | none => key :: missing_keys settings rest
      | some v =>
          if v.isTruthy then missing_keys settings rest
          else key :: missing_keys settings rest

/-- `ConfigurationManager.validate_required_settings`: refresh, then scan the
manifest; `key not in self.settings` / `self.settings[key]` require the
snapshot to be a dict (anything else raises inside the loop). -/
def validate_required_settings (st : CMState) (env : Env)
    (required_keys : List String) : CMState × Except PyErr (List String) :=
  let st' := refresh_config st env
  match st'.settings with
  | .obj fields => (st', .ok (missing_keys fields required_keys))
  | _ => (st', .error .attributeError)

end ConfigurationManager

mutual

/-- Python `repr` of a JSON value, used for values nested inside containers
(`str()` of a list or dict falls back to `repr` of the elements). -/
def pyRepr : JValue → String
  | .str s => "\x27" ++ s ++ "\x27"
  | .num n => toString n
  | .bool b => if b then "True" else "False"
  | .null => "None"
  | .arr xs => "[" ++ pyReprList xs ++ "]"
  | .obj fs => "\x7b" ++ pyReprFields fs ++ "\x7d"

/-- Comma-separated `repr`s of the elements of a Python list. -/
def pyReprList : List JValue → String
  | [] => ""
  | [x] => pyRepr x
  | x :: y :: rest => pyRepr x ++ ", " ++ pyReprList (y :: rest)

/-- Comma-separated `repr`s of the entries of a Python dict. -/
def pyReprFields : List (String × JValue) → String
  | [] => ""
  | [(k, v)] => "\x27" ++ k ++ "\x27: " ++ pyRepr v
  | (k, v) :: f :: rest =>
      "\x27" ++ k ++ "\x27: " ++ pyRepr v ++ ", " ++ pyReprFields (f :: rest)

end

/-- Python `str` of a JSON value, as performed by f-string interpolation. -/
def pyStr : JValue → String
  | .str s => s
  | v => pyRepr v

/-- `d.get(key, "")` on a `Dict[str, str]` argument. -/
def sget (d : List (String × String)) (key : String) : String :=
  match d with
  | [] => ""
  | (k, v) :: rest => if k = key then v else sget rest key

namespace ConfigurationManager

/-- The `for key, value in endpoints.items(): if value: values[key] = value`
loop of `update_service_settings`: only truthy (non-empty) endpoint values
overwrite. -/
def merge_endpoints (fields : List (String × JValue))
    (endpoints : List (String × String)) : List (String × JValue) :=
  match endpoints with
  | [] => fields
  | (k, v) :: rest =>
      merge_endpoints (if v ≠ "" then aset fields k (.str v) else fields) rest

/-- The `try` body of `ConfigurationManager.update_service_settings`:
read (or default) the settings document, overwrite the workspace-name and
storage keys unconditionally, merge truthy endpoint values, write the
document back (`writeOk` is the outcome of `json.dump`), and reload the
in-memory settings from the just-written document.  The returned `JValue`
is the document written to durable storage. -/
def update_service_settings_body (st : CMState) (fileRead : ReadResult)
    (writeOk : Bool) (ml_workspace_name : String)
    (storage_account endpoints : List (String × String)) :
    Except PyErr (CMState × JValue) :=
  let settings_read : Except PyErr JValue :=
    match fileRead with
    | .ok v => .ok v
    | .missing => .ok (.obj [("IsEncrypted", .bool false), ("Values", .obj [])])
    | .failure => .error (.exc 0)
  match settings_read with
  | .error e => .error e
  | .ok settings_data =>
      match pyGet settings_data "Values" (.obj []) with
      | .error e => .error e
      | .ok values =>
          match values, settings_data with
          | .obj fields, .obj data_fields =>
              let fields := aset fields "AZURE_ML_WORKSPACE_NAME" (.str ml_workspace_name)
              let fields := aset fields "AZURE_STORAGE_ACCOUNT"
                (.str (sget storage_account "name"))
              let fields := aset fields "AZURE_BLOB_STORAGE_CONNECTION_STRING"
                (.str (sget storage_account "connection_string"))
              let fields := aset fields "AZURE_BLOB_CONTAINER_NAME"
                (.str (sget storage_account "container_name"))
              let fields := aset fields "AzureWebJobsStorage"
                (.str (sget storage_account "connection_string"))
              let fields := merge_endpoints fields endpoints
              let written := JValue.obj (aset data_fields "Values" (.obj fields))
              if writeOk then .ok (load_settings st (.ok written), written)
              else .error (.exc 1)
          | _, _ => .error .typeError

/-- `ConfigurationManager.update_service_settings`: the whole body runs in a
`try` whose `except` clause only logs, so no exception ever reaches the
caller.  Result: (new in-memory state, document written to storage if any,
exception propagated to the caller). -/
def update_service_settings (st : CMState) (fileRead : ReadResult)
    (writeOk : Bool) (ml_workspace_name : String)
    (storage_account endpoints : List (String × String)) :
    CMState × Option JValue × Option PyErr :=
  match update_service_settings_body st fileRead writeOk ml_workspace_name
      storage_account endpoints with
  | .ok (st', written) => (st', some written, none)
  | .error _ => (st, none, none)

/-- `ConfigurationManager.get_service_endpoints`: refresh, read the workspace
name from the settings snapshot (`.get` raises on a non-dict snapshot), read
the endpoint regions/paths from the defaults document with hardcoded
fallbacks, and build the endpoints dict; the two ML endpoint entries are
emitted only when the workspace name is truthy.  (`AZURE_ML_RESOURCE_GROUP`
and `AZURE_ML_SUBSCRIPTION_ID` are also read in the source but unused.) -/
def get_service_endpoints (st : CMState) (env : Env) :
    CMState × Except PyErr (List (String × JValue)) :=
  let st1 := refresh_config st env
  match st1.settings with
  | .obj s =>
      let ml_workspace_name := (alookup s "AZURE_ML_WORKSPACE_NAME").getD (.str "")
      let prediction_region := (get_config st1 env
        ["azure", "resources", "ml_workspace", "endpoints", "prediction", "region"]
        (.str "eastus")).2
      let prediction_path := (get_config st1 env
        ["azure", "resources", "ml_workspace", "endpoints", "prediction", "path"]
        (.str "score")).2
      let training_region := (get_config st1 env
        ["azure", "resources", "ml_workspace", "endpoints", "training", "region"]
        (.str "eastus")).2
      let training_path := (get_config st1 env
        ["azure", "resources", "ml_workspace", "endpoints", "training", "path"]
        (.str "train")).2
      let endpoints : List (String × JValue) :=
        if ml_workspace_name.isTruthy then
          [("AZURE_ML_PREDICTION_ENDPOINT",
             .str ("https://" ++ pyStr ml_workspace_name ++ "." ++
               pyStr prediction_region ++ ".inference.azureml.net/" ++
               pyStr prediction_path)),
           ("AZURE_ML_TRAINING_ENDPOINT",
             .str ("https://" ++ pyStr ml_workspace_name ++ "." ++
               pyStr training_region ++ ".training.azureml.net/" ++
               pyStr training_path))]
        else []
      let endpoints := endpoints ++
        [("EventHubConnectionString", (alookup s "EventHubConnectionString").getD (.str "")),
         ("ALPHABET_EVENT_HUB", (alookup s "ALPHABET_EVENT_HUB").getD (.str "")),
         ("PREDICTIONS_EVENT_HUB", (alookup s "PREDICTIONS_EVENT_HUB").getD (.str ""))]
      (st1, .ok endpoints)
  | _ => (st1, .error .attributeError)

end ConfigurationManager

/-- The effective retry policy used by `with_retry`: the four values
extracted (with defaults) from the configured `azure.retry_policy`. -/
structure RetryPolicy where
  max_attempts : Int
  initial_delay : Rat
  max_delay : Rat
  exponential_base : Rat

/-- The pre-jitter backoff computed by `with_retry` after failed attempt
`k ≥ 1`: `min(initial_delay * (exponential_base ** (attempt - 1)), max_delay)`
with `attempt = k` (post-increment). -/
def backoff_delay (p : RetryPolicy) (k : Nat) : Rat :=
  min (p.initial_delay * p.exponential_base ^ (k - 1)) p.max_delay

/-- Observable behaviour of one `with_retry` call: how many times the wrapped
operation was invoked, the successive `time.sleep` durations, and the final
result or propagated exception. -/
structure RetryTrace (α : Type) where
  invocations : Nat
  sleeps : List Rat
  outcome : Except PyErr α

/-- The `while attempt < max_attempts` loop of `with_retry`, structurally
recursive on the number of remaining attempts
(`remaining = max_attempts - attempt`): the loop guard
`attempt < max_attempts` is `remaining > 0`, and the post-increment check
`attempt >= max_attempts` (which re-raises the last failure) is
`remaining = 1`.  `results k` is the outcome of the `k`-th invocation of the
wrapped operation (0-based) and `jitters k` the value drawn by
`random.uniform(0, 0.1 * delay)` before the `k`-th sleep. -/
def with_retry_go {α : Type} (p : RetryPolicy) (results : Nat → Except PyErr α)
    (jitters : Nat → Rat) :
    Nat → Nat → Option PyErr → RetryTrace α
  | 0, _, last_exception =>
      ⟨0, [],
        .error (last_exception.getD (.runtimeError "Unexpected error in retry logic"))⟩
  | remaining + 1, attempt, _ =>
      match results attempt with
      | .ok v => ⟨1, [], .ok v⟩
      | .error e =>
          if remaining = 0 then ⟨1, [], .error e⟩
          else
            let delay := backoff_delay p (attempt + 1) + jitters attempt
            let rest := with_retry_go p results jitters remaining (attempt + 1) (some e)
            ⟨rest.invocations + 1, delay :: rest.sleeps, rest.outcome⟩

/-- `with_retry func` under a given effective retry policy, starting with
`attempt = 0` and `last_exception = None`. -/
def with_retry {α : Type} (p : RetryPolicy) (results : Nat → Except PyErr α)
    (jitters : Nat → Rat) : RetryTrace α :=
  with_retry_go p results jitters p.max_attempts.toNat 0 none

namespace ConfigurationManager

/-- The staleness decision inlined in `refresh_config`:
`current_time - self.last_refresh_time > self.refresh_interval`. -/
def should_reload (now last_reload interval : Rat) : Bool :=
  now - last_reload > interval

/-- The reload branch of `refresh_config`: reload both documents and stamp
the current time. -/
def reload_now (st : CMState) (env : Env) : CMState :=
  { load_settings (load_config st env.configRead) env.settingsRead with
      last_refresh_time := env.now }

end ConfigurationManager

/-- Helper: if the first `k` invocations starting at `attempt` all fail and
more than `k` attempts remain, the sleep list starts with the `k` backoff
delays for failed attempts `attempt+1, ..., attempt+k`. -/
theorem with_retry_go_sleeps_prefix {α : Type} (p : RetryPolicy)
    (results : Nat → Except PyErr α) (jitters : Nat → Rat) :
    ∀ (k remaining attempt : Nat) (last : Option PyErr),
      (∀ i < k, ∃ e, results (attempt + i) = .error e) →
      k < remaining →
      ∃ tail, (with_retry_go p results jitters remaining attempt last).sleeps =
        (List.range' attempt k).map (fun i => backoff_delay p (i + 1) + jitters i)
          ++ tail := by
  intro k
  induction k with
  | zero =>
      intro remaining attempt last _ _
      exact ⟨(with_retry_go p results jitters remaining attempt last).sleeps, by simp⟩
  | succ k ih =>
      intro remaining attempt last hfail hk
      obtain ⟨r, rfl⟩ : ∃ r, remaining = r + 1 := ⟨remaining - 1, by omega⟩
      obtain ⟨e, he⟩ := hfail 0 (by omega)
      have hr : r ≠ 0 := by omega
      obtain ⟨tail, htail⟩ := ih r (attempt + 1) (some e)
        (fun i hi => by
          simpa [show attempt + 1 + i = attempt + (i + 1) by omega]
            using hfail (i + 1) (by omega))
        (by omega)
      refine ⟨tail, ?_⟩
      simp only [with_retry_go, show attempt + 0 = attempt by omega] at *
      simp [he, hr, htail, List.range'_succ]

/-- C1: with `max_attempts = 3` and an operation failing on every invocation,
`with_retry` invokes the operation exactly 3 times, sleeps exactly twice (the
two backoff delays, none after the final attempt), and re-raises the failure
of the final (third) attempt. -/
theorem with_retry_exhausts_three_attempts {α : Type} (p : RetryPolicy)
    (results : Nat → Except PyErr α) (E : Nat → PyErr) (jitters : Nat → Rat)
    (hM : p.max_attempts = 3) (hfail : ∀ k, results k = .error (E k)) :
    (with_retry p results jitters).invocations = 3 ∧
    (with_retry p results jitters).sleeps =
      [backoff_delay p 1 + jitters 0, backoff_delay p 2 + jitters 1] ∧
    (with_retry p results jitters).outcome = .error (E 2) := by
  have h3 : p.max_attempts.toNat = 3 := by rw [hM]; rfl
  refine ⟨?_, ?_, ?_⟩ <;>
    simp [with_retry, h3, with_retry_go, hfail 0, hfail 1, hfail 2]

theorem with_retry_exhausts_three_attempts_witness :
    (with_retry (α := Nat) ⟨3, 1, 30, 2⟩ (fun i => .error (.exc i)) (fun _ => 0)).invocations = 3 ∧
    (with_retry (α := Nat) ⟨3, 1, 30, 2⟩ (fun i => .error (.exc i)) (fun _ => 0)).sleeps =
      [backoff_delay ⟨3, 1, 30, 2⟩ 1 + 0, backoff_delay ⟨3, 1, 30, 2⟩ 2 + 0] ∧
    (with_retry (α := Nat) ⟨3, 1, 30, 2⟩ (fun i => .error (.exc i)) (fun _ => 0)).outcome =
      .error (.exc 2) :=
  with_retry_exhausts_three_attempts _ _ _ _ rfl (fun _ => rfl)

/-- C2: if the first `k ≥ 1` invocations fail and attempt `k` is followed by
another attempt (`k < max_attempts`), the `k`-th sleep is the pre-jitter
backoff `min(initial_delay * exponential_base^(k-1), max_delay)` plus the
drawn jitter, which (being drawn from `[0, 0.1 * delay)`) keeps the sleep in
`[delay, 1.1 * delay)`; with jitter disabled and
`initial_delay = 1, exponential_base = 2, max_delay = 30` the successive
delays are `1, 2, 4, 8, 16` then capped at `30`. -/
theorem with_retry_backoff_formula {α : Type} (p : RetryPolicy)
    (results : Nat → Except PyErr α) (jitters : Nat → Rat) (k : Nat)
    (hk : 1 ≤ k) (hlt : (k : Int) < p.max_attempts)
    (hfail : ∀ i < k, ∃ e, results i = .error e)
    (hjit : 0 ≤ jitters (k - 1) ∧ jitters (k - 1) < 1 / 10 * backoff_delay p k) :
    (with_retry p results jitters).sleeps.get? (k - 1) =
      some (backoff_delay p k + jitters (k - 1)) ∧
    backoff_delay p k = min (p.initial_delay * p.exponential_base ^ (k - 1)) p.max_delay ∧
    backoff_delay p k ≤ backoff_delay p k + jitters (k - 1) ∧
    backoff_delay p k + jitters (k - 1) < backoff_delay p k + 1 / 10 * backoff_delay p k ∧
    (with_retry (α := Nat) ⟨7, 1, 30, 2⟩ (fun i => .error (.exc i)) (fun _ => 0)).sleeps =
      [1, 2, 4, 8, 16, 30] := by
  obtain ⟨tail, htail⟩ := with_retry_go_sleeps_prefix p results jitters k
    p.max_attempts.toNat 0 none (by simpa using hfail) (by omega)
  refine ⟨?_, rfl, by linarith [hjit.1], by linarith [hjit.2], ?_⟩
  · rw [with_retry, htail, List.get?_append, List.get?_map, List.get?_range' _ _ (by omega)]
    simp [show k - 1 + 1 = k by omega]
    · simpa using by omega
  · norm_num [with_retry, with_retry_go, backoff_delay]

theorem with_retry_backoff_formula_witness :
    (with_retry (α := Nat) ⟨3, 1, 30, 2⟩ (fun i => .error (.exc i)) (fun _ => (1 : Rat) / 100)).sleeps.get? 0 =
      some (backoff_delay ⟨3, 1, 30, 2⟩ 1 + 1 / 100) ∧
    backoff_delay ⟨3, 1, 30, 2⟩ 1 =
      min ((1 : Rat) * 2 ^ (0 : Nat)) 30 ∧
    backoff_delay ⟨3, 1, 30, 2⟩ 1 ≤ backoff_delay ⟨3, 1, 30, 2⟩ 1 + 1 / 100 ∧
    backoff_delay ⟨3, 1, 30, 2⟩ 1 + 1 / 100 <
      backoff_delay ⟨3, 1, 30, 2⟩ 1 + 1 / 10 * backoff_delay ⟨3, 1, 30, 2⟩ 1 ∧
    (with_retry (α := Nat) ⟨7, 1, 30, 2⟩ (fun i => .error (.exc i)) (fun _ => 0)).sleeps =
      [1, 2, 4, 8, 16, 30] :=
  with_retry_backoff_formula ⟨3, 1, 30, 2⟩ _ _ 1 (by decide) (by decide)
    (fun i _ => ⟨.exc i, rfl⟩)
    (by constructor <;> norm_num [backoff_delay])

/-- C10: with an effective `max_attempts ≤ 0` the loop body never runs, so the
wrapped operation is never invoked and
`RuntimeError("Unexpected error in retry logic")` is raised. -/
theorem with_retry_nonpositive_max_attempts {α : Type} (p : RetryPolicy)
    (results : Nat → Except PyErr α) (jitters : Nat → Rat)
    (h : p.max_attempts ≤ 0) :
    with_retry p results jitters =
      ⟨0, [], .error (.runtimeError "Unexpected error in retry logic")⟩ := by
  have h0 : p.max_attempts.toNat = 0 := Int.toNat_of_nonpos h
  simp [with_retry, h0, with_retry_go]

theorem with_retry_nonpositive_max_attempts_witness :
    with_retry (α := Nat) ⟨0, 1, 30, 2⟩ (fun _ => .ok 7) (fun _ => 0) =
      ⟨0, [], .error (.runtimeError "Unexpected error in retry logic")⟩ :=
  with_retry_nonpositive_max_attempts _ _ _ (by decide)

open ConfigurationManager

/-- C7: `refresh_config` is exactly the stateless decision
`should_reload(now, last_reload, interval) = (now - last_reload) > interval`
followed by the reload branch; for every interval `I ≥ 0` the decision is
true iff the elapsed time `t` satisfies `t > I`, and at the boundary
`t = I` it is false (no reload). -/
theorem refresh_decision_strict_boundary (st : CMState) (env : Env)
    (hI : 0 ≤ st.refresh_interval) :
    refresh_config st env =
      (if should_reload env.now st.last_refresh_time st.refresh_interval
        then reload_now st env else st) ∧
    (∀ t last interval : Rat, 0 ≤ interval →
      (should_reload (last + t) last interval = true ↔ t > interval)) ∧
    (∀ last interval : Rat, should_reload (last + interval) last interval = false) := by
  refine ⟨?_, ?_, ?_⟩
  · by_cases h : env.now - st.last_refresh_time > st.refresh_interval <;>
      simp [refresh_config, reload_now, should_reload, h]
  · intro t last interval _
    simp [should_reload]
  · intro last interval
    simp [should_reload]

theorem refresh_decision_strict_boundary_witness :
    refresh_config ⟨.null, .null, 0, 60⟩ ⟨10, .missing, .missing⟩ =
      (if should_reload 10 0 60
        then reload_now ⟨.null, .null, 0, 60⟩ ⟨10, .missing, .missing⟩
        else ⟨.null, .null, 0, 60⟩) ∧
    should_reload (5 + 60) 5 60 = false :=
  ⟨(refresh_decision_strict_boundary ⟨.null, .null, 0, 60⟩
      ⟨10, .missing, .missing⟩ (by decide)).1,
   (refresh_decision_strict_boundary ⟨.null, .null, 0, 60⟩
      ⟨10, .missing, .missing⟩ (by decide)).2.2 5 60⟩

/-- C4 counterexample: construct a store with timestamp `0` and interval `60`,
and refresh at time `100` with both file reads failing: the reload reads
nothing, yet the refresh timestamp becomes `100 ≠ 0`, so a reload whose
document reads fail does **not** leave the timestamp unchanged. -/
theorem refresh_failed_read_still_stamps :
    (refresh_config ⟨.obj [], .obj [], 0, 60⟩
        ⟨100, .failure, .failure⟩).last_refresh_time = 100 ∧
    ((100 : Rat) ≠ 0) := by
  constructor
  · norm_num [refresh_config, load_config, load_settings]
  · norm_num

/-- C4 amended: the refresh timestamp is initialized at store construction
(to `0`, then stamped by the constructor's initial refresh when
`now - 0 > 60`) and is updated by **every** reload the staleness check
triggers, whether or not the document reads succeed; outside triggered
reloads the state (hence the timestamp) is unchanged. -/
theorem refresh_timestamp_every_triggered_reload (st : CMState) (env : Env) :
    (env.now - st.last_refresh_time > st.refresh_interval →
      (refresh_config st env).last_refresh_time = env.now) ∧
    (¬(env.now - st.last_refresh_time > st.refresh_interval) →
      refresh_config st env = st) ∧
    ((ConfigurationManager.init env).last_refresh_time =
      if 60 < env.now then env.now else 0) := by
  refine ⟨fun h => by simp [refresh_config, h],
          fun h => by simp [refresh_config, h], ?_⟩
  simp only [ConfigurationManager.init, refresh_config]
  split_ifs with h1 h2 <;> first | rfl | linarith

theorem refresh_timestamp_every_triggered_reload_witness :
    (refresh_config ⟨.obj [], .obj [], 0, 60⟩
        ⟨100, .failure, .failure⟩).last_refresh_time = 100 ∧
    refresh_config ⟨.obj [], .obj [], 7, 60⟩ ⟨50, .failure, .failure⟩ =
      ⟨.obj [], .obj [], 7, 60⟩ :=
  ⟨(refresh_timestamp_every_triggered_reload ⟨.obj [], .obj [], 0, 60⟩
      ⟨100, .failure, .failure⟩).1 (by norm_num),
   (refresh_timestamp_every_triggered_reload ⟨.obj [], .obj [], 7, 60⟩
      ⟨50, .failure, .failure⟩).2.1 (by norm_num)⟩

/-- C5 counterexample: `get_setting` is not exception-free for every document
shape.  A settings document `{"Values": 5}` loads successfully
(`settings_data.get("Values", {})` returns `5` without raising), so the
runtime-values snapshot becomes the non-mapping `5`, and the next
`get_setting` call executes `(5).get(key, default)`, which raises
`AttributeError` to the caller. -/
theorem get_setting_raises_on_nonmapping_values :
    (get_setting ⟨.obj [], .obj [], 0, 60⟩
        ⟨100, .missing, .ok (.obj [("Values", .num 5)])⟩ "A" .null).2 =
      .error .attributeError := by
  norm_num [get_setting, refresh_config, load_config, load_settings, pyGet,
    alookup]

/-- C5 amended: on a store whose runtime-values snapshot is `{"A": "1"}` and
whose defaults document is `{"x": {"y": "z"}}` (and which is not yet stale),
`get_setting("A") = "1"`, `get_setting("B", "default") = "default"`,
`get_config("x","y") = "z"`, `get_config("x","missing", default="none") =
"none"`; `get_config`'s walk never raises and returns the default as soon as
a key is missing or the current node is not a mapping, for any document shape
and nesting depth; `get_setting` returns (never raises) whenever the
refreshed snapshot is a mapping, and raises `AttributeError` whenever it is
not (which a document whose `"Values"` entry is a non-mapping makes
reachable). -/
theorem getters_lookup_semantics (st : CMState) (env : Env)
    (hfresh : ¬(env.now - st.last_refresh_time > st.refresh_interval))
    (hs : st.settings = .obj [("A", .str "1")])
    (hc : st.config = .obj [("x", .obj [("y", .str "z")])]) :
    (get_setting st env "A" .null).2 = .ok (.str "1") ∧
    (get_setting st env "B" (.str "default")).2 = .ok (.str "default") ∧
    (get_config st env ["x", "y"] .null).2 = .str "z" ∧
    (get_config st env ["x", "missing"] (.str "none")).2 = .str "none" ∧
    (∀ (st' : CMState) (env' : Env) (key : String) (d : JValue)
        (m : List (String × JValue)),
      (refresh_config st' env').settings = .obj m →
      ∃ v, (get_setting st' env' key d).2 = .ok v) ∧
    (∀ (fields : List (String × JValue)) (key : String) (rest : List String)
        (d : JValue),
      alookup fields key = none → config_walk (.obj fields) (key :: rest) d = d) ∧
    (∀ (v : JValue) (key : String) (rest : List String) (d : JValue),
      (∀ fs, v ≠ JValue.obj fs) → config_walk v (key :: rest) d = d) ∧
    (∀ (st' : CMState) (env' : Env) (key : String) (d : JValue),
      (∀ m, (refresh_config st' env').settings ≠ .obj m) →
      (get_setting st' env' key d).2 = .error .attributeError) := by
  have hst : refresh_config st env = st := by simp [refresh_config, hfresh]
  refine ⟨?_, ?_, ?_, ?_, ?_, ?_, ?_, ?_⟩
  · simp [get_setting, hst, hs, pyGet, alookup]
  · simp [get_setting, hst, hs, pyGet, alookup]
  · simp [get_config, hst, hc, config_walk, alookup]
  · simp [get_config, hst, hc, config_walk, alookup]
  · intro st' env' key d m hm
    exact ⟨(alookup m key).getD d, by simp [get_setting, hm, pyGet]⟩
  · intro fields key rest d h
    simp [config_walk, h]
  · intro v key rest d h
    cases v
    case obj fs => exact absurd rfl (h fs)
    all_goals simp [config_walk]
  · intro st' env' key d h
    cases hsv : (refresh_config st' env').settings with
    | obj m => exact absurd hsv (h m)
    | str s => simp [get_setting, pyGet, hsv]
    | num n => simp [get_setting, pyGet, hsv]
    | bool b => simp [get_setting, pyGet, hsv]
    | null => simp [get_setting, pyGet, hsv]
    | arr xs => simp [get_setting, pyGet, hsv]

theorem getters_lookup_semantics_witness :
    (get_setting ⟨.obj [("x", .obj [("y", .str "z")])], .obj [("A", .str "1")], 0, 60⟩
        ⟨0, .missing, .missing⟩ "A" .null).2 = .ok (.str "1") ∧
    (get_config ⟨.obj [("x", .obj [("y", .str "z")])], .obj [("A", .str "1")], 0, 60⟩
        ⟨0, .missing, .missing⟩ ["x", "missing"] (.str "none")).2 = .str "none" :=
  ⟨(getters_lookup_semantics _ _ (by norm_num) rfl rfl).1,
   (getters_lookup_semantics ⟨.obj [("x", .obj [("y", .str "z")])], .obj [("A", .str "1")], 0, 60⟩
      ⟨0, .missing, .missing⟩ (by norm_num) rfl rfl).2.2.2.1⟩

/-- C6: `validate_required_settings` returns, in manifest order, exactly the
required keys that are absent from the (mapping-shaped) refreshed snapshot or
present with a falsy value: the result equals an order-preserving filter of
the manifest, membership is characterised accordingly, and for manifest
`["a","b","c"]` with only `"b"` missing the result is exactly `["b"]`. -/
theorem validate_required_order_and_content (st : CMState) (env : Env)
    (fields : List (String × JValue)) (required : List String)
    (hs : (refresh_config st env).settings = .obj fields) :
    (validate_required_settings st env required).2 =
      .ok (missing_keys fields required) ∧
    missing_keys fields required = required.filter
      (fun key => match alookup fields key with
        | none => true
        | some v => !v.isTruthy) ∧
    (∀ key, key ∈ missing_keys fields required ↔
      (key ∈ required ∧ (alookup fields key = none ∨
        ∃ v, alookup fields key = some v ∧ v.isTruthy = false))) ∧
    (validate_required_settings
        ⟨.obj [], .obj [("a", .str "1"), ("c", .str "3")], 0, 60⟩
        ⟨0, .missing, .missing⟩ ["a", "b", "c"]).2 = .ok ["b"] := by
  have h2 : missing_keys fields required = required.filter
      (fun key => match alookup fields key with
        | none => true
        | some v => !v.isTruthy) := by
    induction required with
    | nil => rfl
    | cons key rest ih =>
        cases halk : alookup fields key with
        | none => simp [missing_keys, halk, List.filter_cons, ih]
        | some v =>
            by_cases ht : v.isTruthy <;>
              simp [missing_keys, halk, ht, List.filter_cons, ih]
  refine ⟨by simp [validate_required_settings, hs], h2, fun key => ?_, ?_⟩
  · rw [h2, List.mem_filter]
    cases halk : alookup fields key <;> simp [halk]
  · norm_num [validate_required_settings, refresh_config]
    decide

theorem validate_required_order_and_content_witness :
    (validate_required_settings
        ⟨.obj [], .obj [("a", .str "1"), ("c", .str "3")], 0, 60⟩
        ⟨0, .missing, .missing⟩ ["a", "b", "c"]).2 = .ok ["b"] :=
  (validate_required_order_and_content
    ⟨.obj [], .obj [("a", .str "1"), ("c", .str "3")], 0, 60⟩
    ⟨0, .missing, .missing⟩ [("a", .str "1"), ("c", .str "3")] ["a", "b", "c"]
    (by norm_num [ConfigurationManager.refresh_config])).2.2.2

/-- The value stored under `key` in the `"Values"` section of an (optional)
written settings document. -/
def written_value (w : Option JValue) (key : String) : Option JValue :=
  match w with
  | some (.obj fs) =>
      match alookup fs "Values" with
      | some (.obj vs) => alookup vs key
      | _ => none
  | _ => none

theorem alookup_aset_self (fs : List (String × JValue)) (k : String) (v : JValue) :
    alookup (aset fs k v) k = some v := by
  induction fs with
  | nil => simp [aset, alookup]
  | cons p rest ih =>
      obtain ⟨k', w⟩ := p
      by_cases h : k' = k <;> simp [aset, alookup, h, ih]

theorem alookup_aset_ne (fs : List (String × JValue)) (k k' : String) (v : JValue)
    (h : k ≠ k') : alookup (aset fs k' v) k = alookup fs k := by
  induction fs with
  | nil => simp [aset, alookup, Ne.symm h]
  | cons p rest ih =>
      obtain ⟨k'', w⟩ := p
      by_cases h2 : k'' = k' <;> by_cases h3 : k'' = k <;>
        simp_all [aset, alookup]

theorem alookup_merge_endpoints_of_empty (eps : List (String × String)) :
    ∀ (fs : List (String × JValue)) (k : String),
      (∀ v, (k, v) ∈ eps → v = "") →
      alookup (ConfigurationManager.merge_endpoints fs eps) k = alookup fs k := by
  induction eps with
  | nil => intro fs k _; rfl
  | cons p rest ih =>
      intro fs k h
      obtain ⟨k', v'⟩ := p
      by_cases hk : k' = k
      · subst hk
        have hv : v' = "" := h v' (List.mem_cons_self _ _)
        subst hv
        simpa [ConfigurationManager.merge_endpoints]
          using ih fs k' (fun v hv => h v (List.mem_cons_of_mem _ hv))
      · by_cases hv : v' ≠ ""
        · rw [ConfigurationManager.merge_endpoints, if_pos hv,
            ih _ k (fun v hv => h v (List.mem_cons_of_mem _ hv)),
            alookup_aset_ne _ _ _ _ (fun hc => hk hc.symm)]
        · rw [ConfigurationManager.merge_endpoints, if_neg hv,
            ih _ k (fun v hv => h v (List.mem_cons_of_mem _ hv))]

/-- C3 counterexample: a call in which persisting the merged document fails
(`json.dump` raises) returns normally with the original state and no
exception surfaced to the caller — the failure is logged and swallowed, not
re-raised. -/
theorem update_write_failure_swallowed :
    update_service_settings ⟨.obj [], .obj [], 0, 60⟩
        (.ok (.obj [("Values", .obj [])])) false "ws" [] [] =
      (⟨.obj [], .obj [], 0, 60⟩, none, none) := rfl

/-- C3 amended: `update_service_settings` never propagates any exception to
the caller (the whole body is wrapped in a `try` whose handler only logs);
in particular when the durable write fails the call returns with the
in-memory state unchanged and nothing written. -/
theorem update_service_settings_never_raises (st : CMState)
    (fileRead : ReadResult) (writeOk : Bool) (ml : String)
    (sa eps : List (String × String)) :
    (update_service_settings st fileRead writeOk ml sa eps).2.2 = none ∧
    (writeOk = false →
      update_service_settings st fileRead writeOk ml sa eps = (st, none, none)) := by
  constructor
  · rw [update_service_settings]
    cases h : update_service_settings_body st fileRead writeOk ml sa eps with
    | error e => rfl
    | ok v => obtain ⟨st', w⟩ := v; rfl
  · rintro rfl
    rw [update_service_settings]
    have hbody : ∃ e, update_service_settings_body st fileRead false ml sa eps =
        .error e := by
      cases fileRead with
      | failure => exact ⟨.exc 0, rfl⟩
      | missing => exact ⟨.exc 1, rfl⟩
      | ok v =>
          cases v with
          | obj fs =>
              cases hv : (alookup fs "Values").getD (.obj []) with
              | obj vs =>
                  exact ⟨.exc 1, by simp [update_service_settings_body, pyGet, hv]⟩
              | str s =>
                  exact ⟨.typeError, by simp [update_service_settings_body, pyGet, hv]⟩
              | num n =>
                  exact ⟨.typeError, by simp [update_service_settings_body, pyGet, hv]⟩
              | bool b =>
                  exact ⟨.typeError, by simp [update_service_settings_body, pyGet, hv]⟩
              | null =>
                  exact ⟨.typeError, by simp [update_service_settings_body, pyGet, hv]⟩
              | arr xs =>
                  exact ⟨.typeError, by simp [update_service_settings_body, pyGet, hv]⟩
          | str s => exact ⟨.attributeError, rfl⟩
          | num n => exact ⟨.attributeError, rfl⟩
          | bool b => exact ⟨.attributeError, rfl⟩
          | null => exact ⟨.attributeError, rfl⟩
          | arr xs => exact ⟨.attributeError, rfl⟩
    obtain ⟨e, he⟩ := hbody
    rw [he]

theorem update_service_settings_never_raises_witness :
    (update_service_settings ⟨.obj [], .obj [], 0, 60⟩ .missing true "ws"
        [] [("E", "x")]).2.2 = none ∧
    update_service_settings ⟨.obj [], .obj [], 0, 60⟩ .missing false "ws"
        [] [("E", "x")] = (⟨.obj [], .obj [], 0, 60⟩, none, none) :=
  ⟨(update_service_settings_never_raises _ _ _ _ _ _).1,
   (update_service_settings_never_raises ⟨.obj [], .obj [], 0, 60⟩ .missing
      false "ws" [] [("E", "x")]).2 rfl⟩

/-- C8 counterexample: the runtime-values document stores
`AZURE_STORAGE_ACCOUNT = "old"`; calling `update_service_settings` with a
storage mapping whose `name` is the empty string overwrites the stored value
with `""` — an empty value in the provided storage mapping does **not**
leave the existing stored value unchanged. -/
theorem update_empty_storage_overwrites :
    written_value (update_service_settings ⟨.obj [], .obj [], 0, 60⟩
        (.ok (.obj [("Values", .obj [("AZURE_STORAGE_ACCOUNT", .str "old")])]))
        true "ws" [("name", "")] []).2.1 "AZURE_STORAGE_ACCOUNT" =
      some (.str "") ∧
    ("old" : String) ≠ "" := ⟨rfl, by decide⟩

/-- C8 amended: `update_service_settings` applies the non-empty filter only
to the endpoints mapping: a key outside the five unconditionally-written ones
whose endpoint values are all empty (or which the endpoints mapping does not
mention) keeps its prior stored value, while `AZURE_ML_WORKSPACE_NAME` and
the storage-derived keys are overwritten unconditionally with the given
values, even when those are empty. -/
theorem update_merge_semantics (st : CMState) (dfs vs : List (String × JValue))
    (ml : String) (sa eps : List (String × String))
    (hv : alookup dfs "Values" = some (.obj vs)) :
    (∀ key, key ∉ (["AZURE_ML_WORKSPACE_NAME", "AZURE_STORAGE_ACCOUNT",
        "AZURE_BLOB_STORAGE_CONNECTION_STRING", "AZURE_BLOB_CONTAINER_NAME",
        "AzureWebJobsStorage"] : List String) →
      (∀ v, (key, v) ∈ eps → v = "") →
      written_value (update_service_settings st (.ok (.obj dfs)) true ml sa eps).2.1 key
        = alookup vs key) ∧
    ((∀ v, ("AZURE_STORAGE_ACCOUNT", v) ∈ eps → v = "") →
      written_value (update_service_settings st (.ok (.obj dfs)) true ml sa eps).2.1
          "AZURE_STORAGE_ACCOUNT" = some (.str (sget sa "name"))) ∧
    ((∀ v, ("AZURE_ML_WORKSPACE_NAME", v) ∈ eps → v = "") →
      written_value (update_service_settings st (.ok (.obj dfs)) true ml sa eps).2.1
          "AZURE_ML_WORKSPACE_NAME" = some (.str ml)) := by
  have hwritten :
      (update_service_settings st (.ok (.obj dfs)) true ml sa eps).2.1 =
        some (.obj (aset dfs "Values" (.obj (merge_endpoints
          (aset (aset (aset (aset (aset vs
            "AZURE_ML_WORKSPACE_NAME" (.str ml))
            "AZURE_STORAGE_ACCOUNT" (.str (sget sa "name")))
            "AZURE_BLOB_STORAGE_CONNECTION_STRING" (.str (sget sa "connection_string")))
            "AZURE_BLOB_CONTAINER_NAME" (.str (sget sa "container_name")))
            "AzureWebJobsStorage" (.str (sget sa "connection_string")))
          eps)))) := by
    simp [update_service_settings, update_service_settings_body, pyGet, hv]
  rw [hwritten]
  simp only [written_value, alookup_aset_self]
  refine ⟨fun key hkey heps => ?_, fun heps => ?_, fun heps => ?_⟩
  · simp only [List.mem_cons, List.not_mem_nil, or_false, not_or] at hkey
    obtain ⟨h1, h2, h3, h4, h5⟩ := hkey
    rw [alookup_merge_endpoints_of_empty eps _ _ heps,
      alookup_aset_ne _ _ _ _ h5, alookup_aset_ne _ _ _ _ h4,
      alookup_aset_ne _ _ _ _ h3, alookup_aset_ne _ _ _ _ h2,
      alookup_aset_ne _ _ _ _ h1]
  · rw [alookup_merge_endpoints_of_empty eps _ _ heps,
      alookup_aset_ne _ _ _ _ (by decide), alookup_aset_ne _ _ _ _ (by decide),
      alookup_aset_ne _ _ _ _ (by decide), alookup_aset_self]
  · rw [alookup_merge_endpoints_of_empty eps _ _ heps,
      alookup_aset_ne _ _ _ _ (by decide), alookup_aset_ne _ _ _ _ (by decide),
      alookup_aset_ne _ _ _ _ (by decide), alookup_aset_ne _ _ _ _ (by decide),
      alookup_aset_self]

theorem update_merge_semantics_witness :
    written_value (update_service_settings ⟨.obj [], .obj [], 0, 60⟩
        (.ok (.obj [("Values", .obj [("K", .str "keep")])])) true "ws"
        [("name", "n")] []).2.1 "K" = alookup [("K", .str "keep")] "K" ∧
    written_value (update_service_settings ⟨.obj [], .obj [], 0, 60⟩
        (.ok (.obj [("Values", .obj [("K", .str "keep")])])) true "ws"
        [("name", "n")] []).2.1 "AZURE_ML_WORKSPACE_NAME" = some (.str "ws") :=
  ⟨(update_merge_semantics ⟨.obj [], .obj [], 0, 60⟩
      [("Values", .obj [("K", .str "keep")])] [("K", .str "keep")] "ws"
      [("name", "n")] [] rfl).1 "K" (by decide) (by simp),
   (update_merge_semantics ⟨.obj [], .obj [], 0, 60⟩
      [("Values", .obj [("K", .str "keep")])] [("K", .str "keep")] "ws"
      [("name", "n")] [] rfl).2.2 (by simp)⟩

theorem load_config_last_refresh_time (st : CMState) (r : ReadResult) :
    (load_config st r).last_refresh_time = st.last_refresh_time := by
  cases r <;> rfl

theorem load_config_refresh_interval (st : CMState) (r : ReadResult) :
    (load_config st r).refresh_interval = st.refresh_interval := by
  cases r <;> rfl

theorem load_settings_last_refresh_time (st : CMState) (r : ReadResult) :
    (load_settings st r).last_refresh_time = st.last_refresh_time := by
  cases r with
  | ok v => cases v <;> rfl
  | missing => rfl
  | failure => rfl

theorem load_settings_refresh_interval (st : CMState) (r : ReadResult) :
    (load_settings st r).refresh_interval = st.refresh_interval := by
  cases r with
  | ok v => cases v <;> rfl
  | missing => rfl
  | failure => rfl

/-- Refreshing a store with a non-negative interval twice against the same
environment is the same as refreshing it once (the second `refresh_config`,
issued by a nested accessor call, sees a zero elapsed time). -/
theorem refresh_config_idem (st : CMState) (env : Env)
    (hI : 0 ≤ st.refresh_interval) :
    refresh_config (refresh_config st env) env = refresh_config st env := by
  by_cases h : env.now - st.last_refresh_time > st.refresh_interval
  · have h2 : ¬(env.now - (refresh_config st env).last_refresh_time >
        (refresh_config st env).refresh_interval) := by
      rw [refresh_config, if_pos h]
      simp [load_settings_refresh_interval, load_config_refresh_interval]
      linarith
    conv_lhs => rw [refresh_config]
    rw [if_neg h2]
  · have h1 : refresh_config st env = st := by rw [refresh_config, if_neg h]
    rw [h1, refresh_config, if_neg h]

/-- C9: with a non-empty workspace name `ws` and regions/paths read from the
defaults document (hardcoded fallbacks when absent), `get_service_endpoints`
emits `https://{ws}.{region}.inference.azureml.net/{path}` (prediction) and
`https://{ws}.{region}.training.azureml.net/{path}` (training); with an empty
workspace name it emits no ML endpoint entry at all; for
`workspace="foo", region="eastus", path="score"` the produced URL is
`https://foo.eastus.inference.azureml.net/score`, which contains `foo` and
`eastus` and ends in `/score`. -/
theorem service_endpoints_url_shape (st : CMState) (env : Env)
    (s : List (String × JValue)) (ws pr pp tr tp : String)
    (hI : 0 ≤ st.refresh_interval)
    (hs : (refresh_config st env).settings = .obj s)
    (hws : (alookup s "AZURE_ML_WORKSPACE_NAME").getD (.str "") = .str ws)
    (hpr : config_walk (refresh_config st env).config
      ["azure", "resources", "ml_workspace", "endpoints", "prediction", "region"]
      (.str "eastus") = .str pr)
    (hpp : config_walk (refresh_config st env).config
      ["azure", "resources", "ml_workspace", "endpoints", "prediction", "path"]
      (.str "score") = .str pp)
    (htr : config_walk (refresh_config st env).config
      ["azure", "resources", "ml_workspace", "endpoints", "training", "region"]
      (.str "eastus") = .str tr)
    (htp : config_walk (refresh_config st env).config
      ["azure", "resources", "ml_workspace", "endpoints", "training", "path"]
      (.str "train") = .str tp) :
    (ws ≠ "" → (get_service_endpoints st env).2 = .ok
      [("AZURE_ML_PREDICTION_ENDPOINT",
         .str ("https://" ++ ws ++ "." ++ pr ++ ".inference.azureml.net/" ++ pp)),
       ("AZURE_ML_TRAINING_ENDPOINT",
         .str ("https://" ++ ws ++ "." ++ tr ++ ".training.azureml.net/" ++ tp)),
       ("EventHubConnectionString", (alookup s "EventHubConnectionString").getD (.str "")),
       ("ALPHABET_EVENT_HUB", (alookup s "ALPHABET_EVENT_HUB").getD (.str "")),
       ("PREDICTIONS_EVENT_HUB", (alookup s "PREDICTIONS_EVENT_HUB").getD (.str ""))]) ∧
    (ws = "" → (get_service_endpoints st env).2 = .ok
      [("EventHubConnectionString", (alookup s "EventHubConnectionString").getD (.str "")),
       ("ALPHABET_EVENT_HUB", (alookup s "ALPHABET_EVENT_HUB").getD (.str "")),
       ("PREDICTIONS_EVENT_HUB", (alookup s "PREDICTIONS_EVENT_HUB").getD (.str ""))] ∧
      (∀ x1 x2 x3 : JValue,
        alookup [("EventHubConnectionString", x1), ("ALPHABET_EVENT_HUB", x2),
          ("PREDICTIONS_EVENT_HUB", x3)] "AZURE_ML_PREDICTION_ENDPOINT" = none ∧
        alookup [("EventHubConnectionString", x1), ("ALPHABET_EVENT_HUB", x2),
          ("PREDICTIONS_EVENT_HUB", x3)] "AZURE_ML_TRAINING_ENDPOINT" = none)) ∧
    ((get_service_endpoints
        ⟨.obj [], .obj [("AZURE_ML_WORKSPACE_NAME", .str "foo")], 0, 60⟩
        ⟨0, .missing, .missing⟩).2 = .ok
      [("AZURE_ML_PREDICTION_ENDPOINT",
         .str "https://foo.eastus.inference.azureml.net/score"),
       ("AZURE_ML_TRAINING_ENDPOINT",
         .str "https://foo.eastus.training.azureml.net/train"),
       ("EventHubConnectionString", .str ""),
       ("ALPHABET_EVENT_HUB", .str ""),
       ("PREDICTIONS_EVENT_HUB", .str "")]) ∧
    ("https://foo.eastus.inference.azureml.net/score" =
      "https://" ++ "foo" ++ "." ++ "eastus" ++ ".inference.azureml.net/" ++ "score") ∧
    ("https://foo.eastus.inference.azureml.net/score" =
      "https://foo.eastus.inference.azureml.net" ++ "/score") := by
  have hidem := refresh_config_idem st env hI
  refine ⟨fun hne => ?_, fun he => ⟨?_, fun x1 x2 x3 => by simp [alookup]⟩, ?_, rfl, rfl⟩
  · simp [get_service_endpoints, get_config, hidem, hs, hws, hpr, hpp, htr, htp,
      pyStr, JValue.isTruthy, hne]
  · subst he
    simp [get_service_endpoints, get_config, hidem, hs, hws, hpr, hpp, htr, htp,
      pyStr, JValue.isTruthy]
  · have hst : refresh_config
        ⟨.obj [], .obj [("AZURE_ML_WORKSPACE_NAME", .str "foo")], 0, 60⟩
        ⟨0, .missing, .missing⟩ =
        ⟨.obj [], .obj [("AZURE_ML_WORKSPACE_NAME", .str "foo")], 0, 60⟩ := by
      rw [refresh_config, if_neg (by norm_num)]
    simp [get_service_endpoints, get_config, hst, alookup, config_walk,
      pyStr, JValue.isTruthy]

theorem service_endpoints_url_shape_witness :
    (get_service_endpoints
        ⟨.obj [], .obj [("AZURE_ML_WORKSPACE_NAME", .str "foo")], 0, 60⟩
        ⟨0, .missing, .missing⟩).2 = .ok
      [("AZURE_ML_PREDICTION_ENDPOINT",
         .str ("https://" ++ "foo" ++ "." ++ "eastus" ++
           ".inference.azureml.net/" ++ "score")),
       ("AZURE_ML_TRAINING_ENDPOINT",
         .str ("https://" ++ "foo" ++ "." ++ "eastus" ++
           ".training.azureml.net/" ++ "train")),
       ("EventHubConnectionString",
         (alookup [("AZURE_ML_WORKSPACE_NAME", .str "foo")]
           "EventHubConnectionString").getD (.str "")),
       ("ALPHABET_EVENT_HUB",
         (alookup [("AZURE_ML_WORKSPACE_NAME", .str "foo")]
           "ALPHABET_EVENT_HUB").getD (.str "")),
       ("PREDICTIONS_EVENT_HUB",
         (alookup [("AZURE_ML_WORKSPACE_NAME", .str "foo")]
           "PREDICTIONS_EVENT_HUB").getD (.str ""))] :=
  (service_endpoints_url_shape _ _ [("AZURE_ML_WORKSPACE_NAME", .str "foo")]
    "foo" "eastus" "score" "eastus" "train" (by norm_num)
    (by rw [refresh_config, if_neg (by norm_num)]) rfl
    (by rw [refresh_config, if_neg (by norm_num)]; rfl)
    (by rw [refresh_config, if_neg (by norm_num)]; rfl)
    (by rw [refresh_config, if_neg (by norm_num)]; rfl)
    (by rw [refresh_config, if_neg (by norm_num)]; rfl)).1 (by decide)
